import Mathlib

/-!
# Verification of the v4l2loopback-rs device-management core

Shallow embedding of `src/lib.rs`: the `DeviceConfig` value type, the
`v4l2_loopback_config` binary record, the encode/decode conversions
(`TryInto` / `TryFrom`), the control-device opener, and the three lifecycle
operations `add_device`, `delete_device`, `query_device`.

Bytes are modelled as `Nat` (values below 256 in practice); machine integers
`i32`/`u32` are modelled as `Int`/`Nat` with explicit range checks where the
source performs a checked conversion.  The `unsafe` 32-byte read that the
encoder performs out of the label's C-string buffer is modelled by an explicit
`junk` parameter: the bytes that happen to lie in memory after the buffer.
Likewise the decoder's `CStr::from_ptr`, which scans for a null terminator and
may run past the 32-byte `card_label` field, receives the bytes after the
field as a `junk` parameter.  Operating-system and driver interactions
(`open`, the three ioctls) are passed in as explicit outcome parameters.
-/

namespace V4l2Loopback

/-- The fixed-layout binary record `v4l2_loopback_config` exchanged with the
driver (bindgen-generated from `v4l2loopback.h`).  `card_label` is the 32-byte
fixed text field; in the embedding it is a list of bytes of length 32. -/
structure v4l2_loopback_config where
  output_nr : Int
  card_label : List Nat
  min_width : Nat
  max_width : Nat
  min_height : Nat
  max_height : Nat
  max_buffers : Int
  max_openers : Int
  announce_all_caps : Int
  unused : Int
  debug : Int
deriving DecidableEq

/-- `impl Default for v4l2_loopback_config` (src/lib.rs lines 75-92):
`output_nr = -1`, all-zero label, zero numeric fields, zero reserved fields. -/
def v4l2_loopback_config.default : v4l2_loopback_config :=
  { output_nr := -1
    card_label := List.replicate 32 0
    min_width := 0
    max_width := 0
    min_height := 0
    max_height := 0
    max_buffers := 0
    max_openers := 0
    announce_all_caps := 0
    unused := 0
    debug := 0 }

/-- The caller-facing `DeviceConfig` (src/lib.rs lines 112-140).  The `label`
field is a Rust `String`; it is modelled by its UTF-8 byte sequence. -/
structure DeviceConfig where
  label : List Nat
  min_width : Nat
  max_width : Nat
  min_height : Nat
  max_height : Nat
  max_buffers : Int
  max_openers : Int
  announce_all_caps : Int
deriving DecidableEq

/-- A UTF-8 continuation byte: `0x80..=0xBF`. -/
def isCont (b : Nat) : Bool := decide (0x80 ≤ b ∧ b ≤ 0xBF)

/-- UTF-8 validity of a byte sequence, as checked by Rust's
`CStr::to_str` (`str::from_utf8`): ASCII, two- to four-byte sequences with
the standard overlong and surrogate exclusions. -/
def isValidUtf8 : List Nat → Bool
  | [] => true
  | b :: rest =>
    if b ≤ 0x7F then isValidUtf8 rest
    else if decide (0xC2 ≤ b ∧ b ≤ 0xDF) then
      match rest with
      | c1 :: r => isCont c1 && isValidUtf8 r
      | [] => false
    else if b = 0xE0 then
      match rest with
      | c1 :: c2 :: r => decide (0xA0 ≤ c1 ∧ c1 ≤ 0xBF) && isCont c2 && isValidUtf8 r
      | _ => false
    else if decide ((0xE1 ≤ b ∧ b ≤ 0xEC) ∨ b = 0xEE ∨ b = 0xEF) then
      match rest with
      | c1 :: c2 :: r => isCont c1 && isCont c2 && isValidUtf8 r
      | _ => false
    else if b = 0xED then
      match rest with
      | c1 :: c2 :: r => decide (0x80 ≤ c1 ∧ c1 ≤ 0x9F) && isCont c2 && isValidUtf8 r
      | _ => false
    else if b = 0xF0 then
      match rest with
      | c1 :: c2 :: c3 :: r =>
        decide (0x90 ≤ c1 ∧ c1 ≤ 0xBF) && isCont c2 && isCont c3 && isValidUtf8 r
      | _ => false
    else if decide (0xF1 ≤ b ∧ b ≤ 0xF3) then
      match rest with
      | c1 :: c2 :: c3 :: r => isCont c1 && isCont c2 && isCont c3 && isValidUtf8 r
      | _ => false
    else if b = 0xF4 then
      match rest with
      | c1 :: c2 :: c3 :: r =>
        decide (0x80 ≤ c1 ∧ c1 ≤ 0x8F) && isCont c2 && isCont c3 && isValidUtf8 r
      | _ => false
    else false

/-- The label bytes produced by the encoder (src/lib.rs lines 148-153).
The source builds `slice = [0i8; 32]` and overwrites it with the bytes of
`from_raw_parts(CString::new(label).as_ptr(), 32)`: a fixed 32-byte window
starting at the C-string buffer, whose contents are `label ++ [0]` followed —
when the buffer is shorter than 32 bytes — by whatever bytes `junk` happen to
lie after the allocation (an out-of-bounds read in the source). -/
def encodeCardLabel (label junk : List Nat) : List Nat :=
  let window := (label ++ 0 :: junk).take 32
  window ++ List.replicate (32 - window.length) 0

/-- `impl TryInto<v4l2_loopback_config> for DeviceConfig` (src/lib.rs lines
142-165).  `CString::new` fails with `NulError` exactly when the label
contains a null byte (modelled as `none`); otherwise the record starts from
`default` and receives the label window and the seven numeric fields.  No
length check is performed by the source. -/
def DeviceConfig.tryInto (c : DeviceConfig) (junk : List Nat) :
    Option v4l2_loopback_config :=
  if 0 ∈ c.label then none
  else some { v4l2_loopback_config.default with
    card_label := encodeCardLabel c.label junk
    min_width := c.min_width
    max_width := c.max_width
    min_height := c.min_height
    max_height := c.max_height
    max_buffers := c.max_buffers
    max_openers := c.max_openers
    announce_all_caps := c.announce_all_caps }

/-- Bytes of the C string starting at a memory region: everything up to the
first null byte (`CStr::from_ptr`). -/
def cStrBytes (mem : List Nat) : List Nat :=
  mem.takeWhile (fun b => decide (b ≠ 0))

/-- `impl TryFrom<v4l2_loopback_config> for DeviceConfig` (src/lib.rs lines
167-200).  `CStr::from_ptr(card_label.as_ptr())` scans from the start of the
field to the first null byte — past the 32-byte field into following memory
`junk` if the field holds no null — then `to_str` validates UTF-8 (`none`
models `Utf8Error`).  `output_nr`, `unused` and `debug` are destructured away
with `_` and never read. -/
def DeviceConfig.tryFrom (r : v4l2_loopback_config) (junk : List Nat) :
    Option DeviceConfig :=
  let raw := cStrBytes (r.card_label ++ junk)
  if isValidUtf8 raw then
    some { label := raw
           min_width := r.min_width
           max_width := r.max_width
           min_height := r.min_height
           max_height := r.max_height
           max_buffers := r.max_buffers
           max_openers := r.max_openers
           announce_all_caps := r.announce_all_caps }
  else none

example : isValidUtf8 [84, 101, 115, 116] = true := by decide
example : isValidUtf8 [0xC3, 0xA9] = true := by decide
example : isValidUtf8 [0xC0, 0x80] = false := by decide
example : isValidUtf8 [0xFF] = false := by decide

/-- Kinds of `std::io::Error` relevant to `open_control_device`, plus a few
representatives of "any other kind". -/
inductive IoErrorKind where
  | notFound
  | permissionDenied
  | interrupted
  | invalidInput
  | otherKind
deriving DecidableEq

/-- An `std::io::Error`: its `kind()` plus an opaque payload distinguishing
concrete error values of the same kind. -/
structure IoError where
  kind : IoErrorKind
  payload : Nat
deriving DecidableEq

/-- `ControlDeviceError` (src/lib.rs lines 205-220). -/
inductive ControlDeviceError where
  | PermissionDenied
  | NotFound
  | Other (cause : IoError)
deriving DecidableEq

/-- `open_control_device` (src/lib.rs lines 224-233).  The outcome of
`OpenOptions::new().read(true).open("/dev/v4l2loopback")` is supplied by the
operating system as `osOpen`; on success the raw file descriptor is passed
through, on failure the error kind is mapped onto `ControlDeviceError`. -/
def open_control_device (osOpen : Except IoError Nat) :
    Except ControlDeviceError Nat :=
  match osOpen with
  | .ok f => .ok f
  | .error e =>
    match e.kind with
    | .notFound => .error .NotFound
    | .permissionDenied => .error .PermissionDenied
    | _ => .error (.Other e)

/-- A raw OS errno carried by `Error::Ioctl`. -/
abbrev Errno := Nat

/-- The dynamic cause boxed inside `Error::LabelConversionError`: a
`NulError` from `CString::new` during encoding, or a `Utf8Error` from
`CStr::to_str` during decoding. -/
inductive LabelError where
  | nulError
  | utf8Error
deriving DecidableEq

/-- The crate-level `Error` (src/lib.rs lines 236-267).  `Other` boxes a
`TryFromIntError` in the two places the source produces it. -/
inductive Error where
  | ControlDevice (e : ControlDeviceError)
  | Ioctl (e : Errno)
  | DeviceCreationFailed
  | DeviceNotFound (n : Nat)
  | LabelConversionError (cause : LabelError)
  | Other
deriving DecidableEq

/-- `i32::try_from` on a `u32` value: succeeds exactly when the value fits in
a signed 32-bit integer. -/
def i32TryFrom (n : Nat) : Option Int :=
  if n < 2 ^ 31 then some (n : Int) else none

/-- The `output_nr` computed by `add_device` (src/lib.rs lines 310-314):
`num.map(i32::try_from).map(Result::ok).flatten().unwrap_or(-1)`.  Note that
a supplied number that does not fit in `i32` silently becomes `-1`. -/
def addOutputNr (num : Option Nat) : Int :=
  ((num.map i32TryFrom).join).getD (-1)

/-- `add_device` (src/lib.rs lines 305-325).  `osOpen` is the OS outcome of
opening the control device; `ioctlAdd fd cfg` is the raw result of the
`v4l2loopback_ctl_add` ioctl on that descriptor and record; `encJunk` is the
memory lying after the label's C-string buffer (read by the encoder's fixed
32-byte window). -/
def add_device (osOpen : Except IoError Nat)
    (ioctlAdd : Nat → v4l2_loopback_config → Except Errno Int)
    (encJunk : List Nat) (num : Option Nat) (config : DeviceConfig) :
    Except Error Nat :=
  match config.tryInto encJunk with
  | none => .error (.LabelConversionError .nulError)
  | some cfg0 =>
    let cfg := { cfg0 with output_nr := addOutputNr num }
    match open_control_device osOpen with
    | .error e => .error (.ControlDevice e)
    | .ok fd =>
      match ioctlAdd fd cfg with
      | .error errno => .error (.Ioctl errno)
      | .ok dev => if dev < 0 then .error .DeviceCreationFailed else .ok dev.toNat

/-- `delete_device` (src/lib.rs lines 360-375).  The source opens the control
device first, then converts `device_num` to `i32` (failure gives
`Error::Other` boxing the `TryFromIntError`), then issues the remove ioctl. -/
def delete_device (osOpen : Except IoError Nat)
    (ioctlRemove : Nat → Int → Except Errno Int)
    (device_num : Nat) : Except Error Unit :=
  match open_control_device osOpen with
  | .error e => .error (.ControlDevice e)
  | .ok fd =>
    match i32TryFrom device_num with
    | none => .error .Other
    | some converted_num =>
      match ioctlRemove fd converted_num with
      | .error errno => .error (.Ioctl errno)
      | .ok res => if res < 0 then .error (.DeviceNotFound device_num) else .ok ()

/-- `query_device` (src/lib.rs lines 430-451).  A fresh default record gets
`output_nr` from the converted device number; the query ioctl returns the raw
result together with the record as filled in by the driver; the filled record
is decoded with `DeviceConfig::try_from` (`decJunk` being the memory after
its `card_label` field). -/
def query_device (osOpen : Except IoError Nat)
    (ioctlQuery : Nat → v4l2_loopback_config → Except Errno (Int × v4l2_loopback_config))
    (decJunk : List Nat) (device_num : Nat) : Except Error DeviceConfig :=
  match i32TryFrom device_num with
  | none => .error .Other
  | some n =>
    let cfg := { v4l2_loopback_config.default with output_nr := n }
    match open_control_device osOpen with
    | .error e => .error (.ControlDevice e)
    | .ok fd =>
      match ioctlQuery fd cfg with
      | .error errno => .error (.Ioctl errno)
      | .ok (res, filled) =>
        if res < 0 then .error (.DeviceNotFound device_num)
        else
          match DeviceConfig.tryFrom filled decJunk with
          | none => .error (.LabelConversionError .utf8Error)
          | some device_config => .ok device_config

/-! ## Helper lemmas about C-string scanning and the encoder's label window -/

theorem cStrBytes_append_zero (xs ys : List Nat) (h : 0 ∉ xs) :
    cStrBytes (xs ++ 0 :: ys) = xs := by
  induction xs with
  | nil => simp [cStrBytes, List.takeWhile_cons]
  | cons a t ih =>
    have ha : a ≠ 0 := fun hc => h (by simp [hc])
    have ht : 0 ∉ t := fun hc => h (List.mem_cons_of_mem a hc)
    simpa [cStrBytes, List.takeWhile_cons, ha] using ih ht

theorem cStrBytes_append_of_mem_zero (l1 l2 : List Nat) (h : 0 ∈ l1) :
    cStrBytes (l1 ++ l2) = cStrBytes l1 := by
  induction l1 with
  | nil => cases h
  | cons a t ih =>
    by_cases ha : a = 0
    · subst ha; simp [cStrBytes, List.takeWhile_cons]
    · have ht : 0 ∈ t := by
        rcases List.mem_cons.mp h with h1 | h1
        · exact absurd h1.symm ha
        · exact h1
      have hrec := ih ht
      simp only [cStrBytes] at hrec ⊢
      simp only [ne_eq, decide_not] at hrec
      simp [List.takeWhile_cons, ha, hrec]

theorem encodeCardLabel_eq (label junk : List Nat) (h : label.length ≤ 31) :
    ∃ rest, encodeCardLabel label junk = label ++ 0 :: rest := by
  unfold encodeCardLabel
  have h32 : (32 : Nat) - label.length = (31 - label.length) + 1 := by omega
  rw [List.take_append_eq_append_take, List.take_of_length_le (by omega), h32,
    List.take_succ_cons]
  exact ⟨junk.take (31 - label.length) ++
    List.replicate (32 - (label ++ 0 :: junk.take (31 - label.length)).length) 0,
    by simp⟩

/-! ## Claim theorems -/

/-- C1: for every `DeviceConfig` whose label has byte length at most 31,
contains no null bytes (and, being a Rust `String`, is valid UTF-8), and
whose numeric fields lie within the driver's accepted ranges, decoding the
record produced by encoding yields the original config —
`decode(encode(c)) = some c`, for any contents of the out-of-bounds memory
read while encoding (`encJunk`) and of the memory after the label field read
while decoding (`decJunk`). -/
theorem decode_encode_roundtrip (c : DeviceConfig) (encJunk decJunk : List Nat)
    (hutf : isValidUtf8 c.label = true)
    (hlen : c.label.length ≤ 31)
    (hnul : 0 ∉ c.label)
    (hminw : 48 ≤ c.min_width) (hmaxw : c.max_width ≤ 8192)
    (hminh : 32 ≤ c.min_height) (hmaxh : c.max_height ≤ 8192)
    (hbuf : 0 < c.max_buffers) (hop : 0 < c.max_openers) :
    (c.tryInto encJunk).bind (fun r => DeviceConfig.tryFrom r decJunk) = some c := by
  obtain ⟨rest, henc⟩ := encodeCardLabel_eq c.label encJunk hlen
  simp only [DeviceConfig.tryInto, if_neg hnul, Option.some_bind, DeviceConfig.tryFrom,
    henc]
  have hcat : (c.label ++ 0 :: rest) ++ decJunk = c.label ++ 0 :: (rest ++ decJunk) := by
    simp
  rw [hcat, cStrBytes_append_zero c.label (rest ++ decJunk) hnul, hutf]
  simp only [if_true]

/-- A concrete configuration matching the spec's test scenario
(label "Test Device", widths 100-4000, heights 100-4000, 9 buffers,
3 openers, announce flag 1). -/
def testConfig : DeviceConfig :=
  { label := [84, 101, 115, 116, 32, 68, 101, 118, 105, 99, 101]
    min_width := 100
    max_width := 4000
    min_height := 100
    max_height := 4000
    max_buffers := 9
    max_openers := 3
    announce_all_caps := 1 }

/-- Witness for C1 at the spec's test scenario. -/
theorem decode_encode_roundtrip_witness :
    (testConfig.tryInto []).bind (fun r => DeviceConfig.tryFrom r []) = some testConfig :=
  decode_encode_roundtrip testConfig [] [] (by decide) (by decide) (by decide)
    (by decide) (by decide) (by decide) (by decide) (by decide) (by decide)

/-- C2: for every `DeviceConfig` whose label contains an embedded null byte,
encoding fails (no partially encoded record is produced) and `add_device`
returns `Error::LabelConversionError` regardless of the OS open outcome and
of the ioctl behaviour — so no control request is ever issued. -/
theorem nul_label_fails (c : DeviceConfig) (hnul : 0 ∈ c.label) :
    (∀ junk, c.tryInto junk = none) ∧
    (∀ osOpen ioctlAdd encJunk num,
      add_device osOpen ioctlAdd encJunk num c =
        .error (.LabelConversionError .nulError)) := by
  constructor
  · intro junk
    simp [DeviceConfig.tryInto, hnul]
  · intro osOpen ioctlAdd encJunk num
    simp [add_device, DeviceConfig.tryInto, hnul]

/-- A configuration whose label embeds a null byte. -/
def nulConfig : DeviceConfig :=
  { label := [65, 0, 66]
    min_width := 0
    max_width := 0
    min_height := 0
    max_height := 0
    max_buffers := 0
    max_openers := 0
    announce_all_caps := 0 }

/-- Witness for C2 at a label with an embedded null byte. -/
theorem nul_label_fails_witness :
    nulConfig.tryInto [] = none ∧
    add_device (.ok 3) (fun _ _ => .ok 0) [] none nulConfig =
      .error (.LabelConversionError .nulError) :=
  ⟨(nul_label_fails nulConfig (by decide)).1 [],
    (nul_label_fails nulConfig (by decide)).2 (.ok 3) (fun _ _ => .ok 0) [] none⟩

/-- A configuration whose label content is 32 bytes of `a` — one byte over
the 31-byte budget. -/
def longLabelConfig : DeviceConfig :=
  { label := List.replicate 32 97
    min_width := 0
    max_width := 0
    min_height := 0
    max_height := 0
    max_buffers := 0
    max_openers := 0
    announce_all_caps := 0 }

/-- A configuration with a 1-byte label, used to exhibit the out-of-bounds
read: the encoder's fixed 32-byte window drags the memory lying after the
2-byte C-string buffer into the record. -/
def shortLabelConfig : DeviceConfig :=
  { label := [97]
    min_width := 0
    max_width := 0
    min_height := 0
    max_height := 0
    max_buffers := 0
    max_openers := 0
    announce_all_caps := 0 }

/-- C3 (code bug): the source's encoder performs no length check.  A 32-byte
label does NOT fail: it is silently copied whole into the record with no null
terminator.  And a 1-byte label makes the fixed 32-byte window read past the
label's own 2-byte C-string storage: bytes of adjacent memory (here 7s) are
copied into the record.  This contradicts the crate's own documentation of
`LabelConversionError` ("it's legth must not exceed 32") and the spec, which
require over-long labels to fail cleanly and the copy to be bounded by
`min(label_len, 31)`. -/
theorem overlong_label_encodes_anyway :
    (longLabelConfig.tryInto []).isSome = true ∧
    Option.map v4l2_loopback_config.card_label (longLabelConfig.tryInto []) =
      some (List.replicate 32 97) ∧
    Option.map v4l2_loopback_config.card_label
        (shortLabelConfig.tryInto (List.replicate 40 7)) =
      some (97 :: 0 :: List.replicate 30 7) := by
  decide

/-- C4: `open_control_device` maps the OS outcome to exactly one
`ControlDeviceError`: not-found to `NotFound`, permission-denied to
`PermissionDenied`, every other failure to `Other` carrying the cause, and a
success passes the descriptor through. -/
theorem open_control_device_mapping (osOpen : Except IoError Nat) :
    (∀ fd, osOpen = .ok fd → open_control_device osOpen = .ok fd) ∧
    (∀ e, osOpen = .error e →
      (e.kind = .notFound → open_control_device osOpen = .error .NotFound) ∧
      (e.kind = .permissionDenied →
        open_control_device osOpen = .error .PermissionDenied) ∧
      (e.kind ≠ .notFound → e.kind ≠ .permissionDenied →
        open_control_device osOpen = .error (.Other e))) := by
  constructor
  · rintro fd rfl
    rfl
  · rintro ⟨k, p⟩ rfl
    refine ⟨?_, ?_, ?_⟩ <;> cases k <;> simp [open_control_device]

/-- Witness for C4 on all four outcome shapes. -/
theorem open_control_device_mapping_witness :
    open_control_device (.error ⟨.notFound, 0⟩) = .error .NotFound ∧
    open_control_device (.error ⟨.permissionDenied, 1⟩) = .error .PermissionDenied ∧
    open_control_device (.error ⟨.interrupted, 2⟩) = .error (.Other ⟨.interrupted, 2⟩) ∧
    open_control_device (.ok 5) = .ok 5 :=
  ⟨((open_control_device_mapping _).2 _ rfl).1 rfl,
    ((open_control_device_mapping _).2 _ rfl).2.1 rfl,
    ((open_control_device_mapping _).2 _ rfl).2.2 (by decide) (by decide),
    (open_control_device_mapping _).1 5 rfl⟩

/-- The all-default configuration (empty label, zero numeric fields). -/
def emptyConfig : DeviceConfig :=
  { label := []
    min_width := 0
    max_width := 0
    min_height := 0
    max_height := 0
    max_buffers := 0
    max_openers := 0
    announce_all_caps := 0 }

/-- C5 counterexample: requesting device number `2^31` (one past `i32::MAX`)
does NOT yield `Error::Other` — `add_device` silently computes `output_nr =
-1` (auto-assign) and proceeds.  The ioctl here answers 7 exactly when the
record it receives has `output_nr = -1`, so the successful result `.ok 7`
shows both that the call proceeded and that the out-of-range request was
replaced by the auto-assign sentinel rather than the requested number. -/
theorem add_device_out_of_range_proceeds :
    addOutputNr (some (2 ^ 31)) = -1 ∧
    add_device (.ok 3) (fun _ cfg => .ok (if cfg.output_nr = -1 then 7 else 8)) []
      (some (2 ^ 31)) emptyConfig = .ok 7 :=
  ⟨rfl, rfl⟩

/-- C5 amended: `add_device` sets the record's `output_nr` to the requested
number when one is supplied and it fits in a signed 32-bit integer, and to
`-1` when none is supplied or when the requested number is out of range — in
the latter case the call silently proceeds as auto-assign and never returns
`Error::Other`.  (Only `query_device` and `delete_device` turn an
out-of-range device number into `Error::Other`; the `query_device` half is
recorded here.) -/
theorem add_device_output_nr (num : Option Nat) :
    (num = none → addOutputNr num = -1) ∧
    (∀ n : Nat, num = some n → n < 2 ^ 31 → addOutputNr num = (n : Int)) ∧
    (∀ n : Nat, num = some n → 2 ^ 31 ≤ n → addOutputNr num = -1) ∧
    (∀ osOpen ioctlAdd encJunk c,
      add_device osOpen ioctlAdd encJunk num c ≠ .error .Other) ∧
    (∀ osOpen ioctlQuery decJunk n, 2 ^ 31 ≤ n →
      query_device osOpen ioctlQuery decJunk n = .error .Other) := by
  refine ⟨?_, ?_, ?_, ?_, ?_⟩
  · rintro rfl
    rfl
  · rintro n rfl hn
    have h1 : n < 2147483648 := by omega
    simp [addOutputNr, i32TryFrom, h1]
  · rintro n rfl hn
    have h1 : ¬n < 2147483648 := by omega
    simp [addOutputNr, i32TryFrom, h1]
  · intro osOpen ioctlAdd encJunk c
    unfold add_device
    rcases h : c.tryInto encJunk with _ | cfg0
    · simp
    · rcases h2 : open_control_device osOpen with e | fd
      · simp
      · rcases h3 : ioctlAdd fd { cfg0 with output_nr := addOutputNr num } with errno | dev
        · simp [h3]
        · by_cases hdev : dev < 0 <;> simp [h3, hdev]
  · intro osOpen ioctlQuery decJunk n hn
    have h1 : ¬n < 2147483648 := by omega
    unfold query_device
    simp [i32TryFrom, h1]

/-- Witness for C5's amended statement. -/
theorem add_device_output_nr_witness :
    addOutputNr none = -1 ∧
    addOutputNr (some 5) = 5 ∧
    addOutputNr (some (2 ^ 31 + 1)) = -1 ∧
    add_device (.ok 3) (fun _ _ => .ok 0) [] (some 5) emptyConfig ≠ .error .Other ∧
    query_device (.ok 3) (fun _ _ => .ok (0, v4l2_loopback_config.default)) []
      (2 ^ 31) = .error .Other :=
  ⟨(add_device_output_nr none).1 rfl,
    (add_device_output_nr (some 5)).2.1 5 rfl (by decide),
    (add_device_output_nr (some (2 ^ 31 + 1))).2.2.1 (2 ^ 31 + 1) rfl (by decide),
    (add_device_output_nr (some 5)).2.2.2.1 (.ok 3) (fun _ _ => .ok 0) [] emptyConfig,
    (add_device_output_nr (some 5)).2.2.2.2 (.ok 3)
      (fun _ _ => .ok (0, v4l2_loopback_config.default)) [] (2 ^ 31) (by decide)⟩

/-- C6: once `add_device` reaches the add control request, a negative raw
result yields `Error::DeviceCreationFailed` and a non-negative raw result is
returned as the assigned device number. -/
theorem add_device_result (osOpen : Except IoError Nat)
    (ioctlAdd : Nat → v4l2_loopback_config → Except Errno Int)
    (encJunk : List Nat) (num : Option Nat) (c : DeviceConfig)
    (fd : Nat) (cfg0 : v4l2_loopback_config) (raw : Int)
    (hopen : osOpen = .ok fd)
    (henc : c.tryInto encJunk = some cfg0)
    (hioctl : ioctlAdd fd { cfg0 with output_nr := addOutputNr num } = .ok raw) :
    (raw < 0 →
      add_device osOpen ioctlAdd encJunk num c = .error .DeviceCreationFailed) ∧
    (0 ≤ raw →
      add_device osOpen ioctlAdd encJunk num c = .ok raw.toNat) := by
  subst hopen
  unfold add_device
  rw [henc]
  constructor
  · intro hneg
    simp [open_control_device, hioctl, hneg]
  · intro hpos
    simp [open_control_device, hioctl, Int.not_lt.mpr hpos]

/-- The record produced by encoding `emptyConfig` with no junk memory. -/
def emptyRecord : v4l2_loopback_config :=
  { v4l2_loopback_config.default with card_label := encodeCardLabel [] [] }

/-- Witness for C6 on a rejecting driver (raw result -1) and an accepting
driver (raw result 9). -/
theorem add_device_result_witness :
    add_device (.ok 3) (fun _ _ => .ok (-1)) [] none emptyConfig =
      .error .DeviceCreationFailed ∧
    add_device (.ok 3) (fun _ _ => .ok 9) [] none emptyConfig = .ok 9 :=
  ⟨(add_device_result (.ok 3) (fun _ _ => .ok (-1)) [] none emptyConfig 3
      emptyRecord (-1) rfl (by decide) rfl).1 (by decide),
    (add_device_result (.ok 3) (fun _ _ => .ok 9) [] none emptyConfig 3
      emptyRecord 9 rfl (by decide) rfl).2 (by decide)⟩

/-- C7: when the remove or query control request returns a negative raw
result, `delete_device n` and `query_device n` return
`Error::DeviceNotFound n` carrying the same device number `n`. -/
theorem negative_result_device_not_found (fd : Nat)
    (ioctlRemove : Nat → Int → Except Errno Int)
    (ioctlQuery : Nat → v4l2_loopback_config → Except Errno (Int × v4l2_loopback_config))
    (decJunk : List Nat) (n : Nat) (cn : Int) (raw rawq : Int)
    (filled : v4l2_loopback_config)
    (hconv : i32TryFrom n = some cn)
    (hrm : ioctlRemove fd cn = .ok raw) (hraw : raw < 0)
    (hq : ioctlQuery fd { v4l2_loopback_config.default with output_nr := cn } =
      .ok (rawq, filled))
    (hrawq : rawq < 0) :
    delete_device (.ok fd) ioctlRemove n = .error (.DeviceNotFound n) ∧
    query_device (.ok fd) ioctlQuery decJunk n = .error (.DeviceNotFound n) := by
  constructor
  · unfold delete_device
    simp [open_control_device, hconv, hrm, hraw]
  · unfold query_device
    simp [open_control_device, hconv, hq, hrawq]

/-- Witness for C7 at device number 9 with a driver answering -1. -/
theorem negative_result_device_not_found_witness :
    delete_device (.ok 3) (fun _ _ => .ok (-1)) 9 = .error (.DeviceNotFound 9) ∧
    query_device (.ok 3) (fun _ _ => .ok (-1, v4l2_loopback_config.default)) [] 9 =
      .error (.DeviceNotFound 9) :=
  negative_result_device_not_found 3 (fun _ _ => .ok (-1))
    (fun _ _ => .ok (-1, v4l2_loopback_config.default)) [] 9 9 (-1) (-1)
    v4l2_loopback_config.default (by decide) rfl (by decide) rfl (by decide)

/-- C8: decoding reads the label field only up to its first null terminator
(whenever the field holds a terminator, the memory after the field is
irrelevant) and validates the bytes before it as UTF-8 text; if they are not
valid text, `try_from` fails and `query_device` surfaces the failure as
`Error::LabelConversionError` instead of returning a config. -/
theorem decode_label_handling :
    (∀ r junk, 0 ∈ r.card_label →
      DeviceConfig.tryFrom r junk = DeviceConfig.tryFrom r []) ∧
    (∀ r junk, isValidUtf8 (cStrBytes (r.card_label ++ junk)) = false →
      DeviceConfig.tryFrom r junk = none) ∧
    (∀ fd ioctlQuery decJunk n cn rawq filled,
      i32TryFrom n = some cn →
      ioctlQuery fd { v4l2_loopback_config.default with output_nr := cn } =
        .ok (rawq, filled) →
      (0 : Int) ≤ rawq →
      DeviceConfig.tryFrom filled decJunk = none →
      query_device (.ok fd) ioctlQuery decJunk n =
        .error (.LabelConversionError .utf8Error)) := by
  refine ⟨?_, ?_, ?_⟩
  · intro r junk h
    unfold DeviceConfig.tryFrom
    rw [cStrBytes_append_of_mem_zero r.card_label junk h,
      ← cStrBytes_append_of_mem_zero r.card_label [] h]
  · intro r junk h
    simp [DeviceConfig.tryFrom, h]
  · intro fd ioctlQuery decJunk n cn rawq filled hconv hq hpos hdec
    unfold query_device
    simp [open_control_device, hconv, hq, Int.not_lt.mpr hpos, hdec]

/-- A driver-filled record whose label field starts with the invalid UTF-8
byte 0xFF before its null terminator. -/
def badLabelRecord : v4l2_loopback_config :=
  { v4l2_loopback_config.default with card_label := 255 :: List.replicate 31 0 }

/-- Witness for C8: decoding the invalid-text record fails, and a query whose
driver hands back that record surfaces `LabelConversionError`. -/
theorem decode_label_handling_witness :
    DeviceConfig.tryFrom badLabelRecord [] = none ∧
    query_device (.ok 3) (fun _ _ => .ok (0, badLabelRecord)) [] 9 =
      .error (.LabelConversionError .utf8Error) :=
  ⟨decode_label_handling.2.1 badLabelRecord [] (by decide),
    decode_label_handling.2.2 3 (fun _ _ => .ok (0, badLabelRecord)) [] 9 9 0
      badLabelRecord (by decide) rfl (by decide)
      (decode_label_handling.2.1 badLabelRecord [] (by decide))⟩

/-- C9: every record this core constructs — the `default` record, the
query record built from it, and every record produced by encoding a
`DeviceConfig` — has its reserved fields `unused` and `debug` equal to zero,
and decoding never reads them. -/
theorem reserved_fields_zero :
    (v4l2_loopback_config.default.unused = 0 ∧
      v4l2_loopback_config.default.debug = 0) ∧
    (∀ n : Int,
      ({ v4l2_loopback_config.default with output_nr := n }).unused = 0 ∧
      ({ v4l2_loopback_config.default with output_nr := n }).debug = 0) ∧
    (∀ c junk r, DeviceConfig.tryInto c junk = some r →
      r.unused = 0 ∧ r.debug = 0) ∧
    (∀ r junk u d,
      DeviceConfig.tryFrom { r with unused := u, debug := d } junk =
        DeviceConfig.tryFrom r junk) := by
  refine ⟨⟨rfl, rfl⟩, fun n => ⟨rfl, rfl⟩, ?_, fun r junk u d => rfl⟩
  intro c junk r h
  unfold DeviceConfig.tryInto at h
  split at h
  · cases h
  · injection h with h
    subst h
    exact ⟨rfl, rfl⟩

/-- Witness for C9's encoder conjunct at the empty configuration. -/
theorem reserved_fields_zero_witness :
    emptyRecord.unused = 0 ∧ emptyRecord.debug = 0 :=
  reserved_fields_zero.2.2.1 emptyConfig [] emptyRecord (by decide)

/-- C10: decoding depends only on the label field and the seven numeric
configuration fields — two records agreeing on those decode identically,
whatever their `output_nr`, `unused` and `debug`. -/
theorem decode_ignores_untracked_fields (r1 r2 : v4l2_loopback_config)
    (junk : List Nat)
    (hlab : r1.card_label = r2.card_label)
    (h1 : r1.min_width = r2.min_width) (h2 : r1.max_width = r2.max_width)
    (h3 : r1.min_height = r2.min_height) (h4 : r1.max_height = r2.max_height)
    (h5 : r1.max_buffers = r2.max_buffers) (h6 : r1.max_openers = r2.max_openers)
    (h7 : r1.announce_all_caps = r2.announce_all_caps) :
    DeviceConfig.tryFrom r1 junk = DeviceConfig.tryFrom r2 junk := by
  unfold DeviceConfig.tryFrom
  rw [hlab, h1, h2, h3, h4, h5, h6, h7]

/-- A record differing from `default` exactly in `output_nr`, `unused` and
`debug`. -/
def scrambledRecord : v4l2_loopback_config :=
  { v4l2_loopback_config.default with output_nr := 5, unused := 17, debug := 3 }

/-- Witness for C10 on a pair of records differing only in the three
untracked fields. -/
theorem decode_ignores_untracked_fields_witness :
    DeviceConfig.tryFrom scrambledRecord [] =
      DeviceConfig.tryFrom v4l2_loopback_config.default [] :=
  decode_ignores_untracked_fields scrambledRecord v4l2_loopback_config.default []
    rfl rfl rfl rfl rfl rfl rfl rfl

end V4l2Loopback
